import Mathlib

/-!
A formal model of parts of the flipt feature-flag server: storage-configuration
validation, features-file validation, the gRPC middleware pipeline (validation,
error translation, evaluation enrichment, caching, audit) and the boolean
evaluation engine, with theorems checking the behaviour the specification
describes. Structures and functions are shallow embeddings of the Go source;
components whose implementation is not part of the source tree (only their
tests are) carry a doc comment starting with `Modelled from the spec:`.
-/

namespace Flipt.Config

/-- Basic-auth configuration for git storage (internal/config/storage.go, `BasicAuth`). -/
structure BasicAuth where
  username : String
  password : String
deriving DecidableEq, Repr

/-- Validation of basic auth (internal/config/storage.go, `BasicAuth.validate`):
both username and password must be given, or neither. The result is the error
message, `none` meaning a nil error. -/
def BasicAuth.validate (b : BasicAuth) : Option String :=
  if (b.username != "" && b.password == "") || (b.username == "" && b.password != "") then
    some "both username and password need to be provided for basic auth"
  else none

/-- Token-auth configuration for git storage (internal/config/storage.go, `TokenAuth`). -/
structure TokenAuth where
  accessToken : String
deriving DecidableEq, Repr

/-- Validation of token auth always succeeds (internal/config/storage.go,
`TokenAuth.validate`). -/
def TokenAuth.validate (_ : TokenAuth) : Option String := none

/-- SSH-auth configuration for git storage (internal/config/storage.go, `SSHAuth`). -/
structure SSHAuth where
  user : String
  password : String
  privateKeyBytes : String
  privateKeyPath : String
  insecureIgnoreHostKey : Bool
deriving DecidableEq, Repr

/-- Validation of ssh auth (internal/config/storage.go, `SSHAuth.validate`); the
deferred wrapping prepends "ssh authentication: " to every error. -/
def SSHAuth.validate (a : SSHAuth) : Option String :=
  if a.password == "" then
    some "ssh authentication: password required"
  else if (a.privateKeyBytes == "" && a.privateKeyPath == "") ||
      (a.privateKeyBytes != "" && a.privateKeyPath != "") then
    some "ssh authentication: please provide exclusively one of private_key_bytes or private_key_path"
  else none

/-- Authentication choices for git storage (internal/config/storage.go,
`Authentication`); each field models a possibly-nil pointer. -/
structure Authentication where
  basicAuth : Option BasicAuth
  tokenAuth : Option TokenAuth
  sshAuth : Option SSHAuth
deriving DecidableEq, Repr

/-- Validation of the authentication block (internal/config/storage.go,
`Authentication.validate`): each present auth method is validated in order
(basic, token, ssh) and the first error is returned. -/
def Authentication.validate (a : Authentication) : Option String :=
  (a.basicAuth.bind BasicAuth.validate) <|>
    (a.tokenAuth.bind TokenAuth.validate) <|>
      (a.sshAuth.bind SSHAuth.validate)

/-- Git storage configuration (internal/config/storage.go, `Git`). -/
structure Git where
  repository : String
  ref : String
  caCertBytes : String
  caCertPath : String
  authentication : Authentication
deriving DecidableEq, Repr

/-- Validation of the git block (internal/config/storage.go, `Git.validate`). -/
def Git.validate (g : Git) : Option String :=
  if g.caCertPath != "" && g.caCertBytes != "" then
    some "please provide only one of ca_cert_path or ca_cert_bytes"
  else none

/-- Local storage configuration (internal/config/storage.go, `Local`). -/
structure Local where
  path : String
deriving DecidableEq, Repr

/-- S3 object storage configuration (internal/config/storage.go, `S3`); only the
field read by validation is modelled. -/
structure S3 where
  bucket : String
deriving DecidableEq, Repr

/-- Azure-blob object storage configuration (internal/config/storage.go, `AZBlob`);
only the field read by validation is modelled. -/
structure AZBlob where
  container : String
deriving DecidableEq, Repr

/-- Object storage configuration (internal/config/storage.go, `Object`); the
sub-storage type is a string ("s3" or "azblob") as in Go. -/
structure Object where
  type : String
  s3 : Option S3
  azblob : Option AZBlob
deriving DecidableEq, Repr

/-- Validation of the object block (internal/config/storage.go, `Object.validate`). -/
def Object.validate (o : Object) : Option String :=
  if o.type == "s3" then
    match o.s3 with
    | none => some "s3 bucket must be specified"
    | some s => if s.bucket == "" then some "s3 bucket must be specified" else none
  else if o.type == "azblob" then
    match o.azblob with
    | none => some "azblob container must be specified"
    | some a => if a.container == "" then some "azblob container must be specified" else none
  else some "object storage type must be specified"

/-- OCI storage configuration (internal/config/storage.go, `OCI`); only the
fields read by validation are modelled. -/
structure OCI where
  repository : String
  bundlesDirectory : String
deriving DecidableEq, Repr

/-- Storage configuration (internal/config/storage.go, `StorageConfig`). The Go
`Git`, `Local` and `OCI` pointers are dereferenced unconditionally inside
`validate` (a nil pointer would panic, outside this model), so they are taken as
struct values here; `Object` is checked against nil in the source and therefore
stays optional. `readOnly` models the `*bool` field: `none` is a nil pointer. -/
structure StorageConfig where
  type : String
  localStorage : Local
  git : Git
  object : Option Object
  oci : OCI
  readOnly : Option Bool
deriving DecidableEq, Repr

/-- The per-type portion of `StorageConfig.validate` (internal/config/storage.go
lines 85-121): the switch over the storage type. `parseReference` stands for
`oci.ParseReference` from package internal/oci, which is outside the source
tree; it returns the parse-error message, `none` on success. Types other than
git/local/object/oci (including "database" and the empty string) have no
per-type check. -/
def StorageConfig.perTypeValidate (parseReference : String → Option String)
    (c : StorageConfig) : Option String :=
  if c.type == "git" then
    if c.git.ref == "" then some "git ref must be specified"
    else if c.git.repository == "" then some "git repository must be specified"
    else
      match c.git.authentication.validate with
      | some e => some e
      | none => c.git.validate
  else if c.type == "local" then
    if c.localStorage.path == "" then some "local path must be specified" else none
  else if c.type == "object" then
    match c.object with
    | none => some "object storage type must be specified"
    | some o => o.validate
  else if c.type == "oci" then
    if c.oci.repository == "" then some "oci storage repository must be specified"
    else
      match parseReference c.oci.repository with
      | some e => some ("validating OCI configuration: " ++ e)
      | none => none
  else none

/-- The read-only-mode error message of `StorageConfig.validate`
(internal/config/storage.go line 125). -/
def readOnlyModeError : String :=
  "setting read only mode is only supported with database storage"

/-- Shallow embedding of `StorageConfig.validate` (internal/config/storage.go
lines 84-129): run the per-type switch; any of its errors returns immediately;
then the read-only check fires exactly when `ReadOnly` is non-nil, points at
false, and the storage type is not "database". -/
def StorageConfig.validate (parseReference : String → Option String)
    (c : StorageConfig) : Option String :=
  match c.perTypeValidate parseReference with
  | some e => some e
  | none =>
      if c.readOnly = some false ∧ c.type ≠ "database" then some readOnlyModeError
      else none

end Flipt.Config

namespace Flipt.Config

/-- A concrete git storage configuration with read-only pointing at true, used
as the witness input for the read-only validation theorem. -/
def gitReadOnlyTrueConfig : StorageConfig :=
  { type := "git"
    localStorage := { path := "" }
    git :=
      { repository := "https://example.com/repo.git"
        ref := "main"
        caCertBytes := ""
        caCertPath := ""
        authentication := { basicAuth := none, tokenAuth := none, sshAuth := none } }
    object := none
    oci := { repository := "", bundlesDirectory := "" }
    readOnly := some true }

end Flipt.Config

/-- Claim C9: for every StorageConfig whose per-type checks pass, validate
returns the read-only-mode error exactly when ReadOnly is non-nil, points at
false, and the type is not "database"; and a config with ReadOnly pointing at
true combined with a non-database storage type passes validation. -/
theorem C9_storage_validate_read_only
    (parseReference : String → Option String) (c : Flipt.Config.StorageConfig)
    (h : c.perTypeValidate parseReference = none) :
    (c.validate parseReference = some Flipt.Config.readOnlyModeError ↔
      (c.readOnly = some false ∧ c.type ≠ "database")) ∧
    (c.readOnly = some true → c.type ≠ "database" → c.validate parseReference = none) := by
  unfold Flipt.Config.StorageConfig.validate
  rw [h]
  constructor
  · by_cases hc : c.readOnly = some false ∧ c.type ≠ "database"
    · simp [hc]
    · simp only [if_neg hc]
      constructor
      · intro habs
        exact absurd habs (by simp)
      · intro habs
        exact absurd habs hc
  · intro htrue _
    have : ¬(c.readOnly = some false ∧ c.type ≠ "database") := by
      intro ⟨hfalse, _⟩
      rw [htrue] at hfalse
      exact absurd (Option.some.inj hfalse) (by simp)
    simp [this]

/-- Witness for C9: a git-storage configuration (per-type checks passing) with
ReadOnly pointing at true passes validation, and the same configuration with
ReadOnly pointing at false fails with the read-only-mode error. -/
theorem C9_storage_validate_read_only_witness :
    Flipt.Config.gitReadOnlyTrueConfig.validate (fun _ => none) = none ∧
    Flipt.Config.StorageConfig.validate (fun _ => none)
        { Flipt.Config.gitReadOnlyTrueConfig with readOnly := some false } =
      some Flipt.Config.readOnlyModeError :=
  ⟨(C9_storage_validate_read_only (fun _ => none) Flipt.Config.gitReadOnlyTrueConfig
      (by decide)).2 rfl (by decide),
   (C9_storage_validate_read_only (fun _ => none)
      { Flipt.Config.gitReadOnlyTrueConfig with readOnly := some false }
      (by decide)).1.mpr ⟨rfl, by decide⟩⟩

namespace Flipt.Cue

/-- Outcome of processing one YAML document of the input stream inside
`FeaturesValidator.Validate` (the cue package, src/unnamed/part_002 lines
115-154). Each fallible stage of the loop body is carried as data, the stage
functions themselves (goyaml.Decode, goyaml.Marshal, yaml.Extract and the
cue-based validateSingleDocument) being external library calls whose error
values — including the location offsets Validate computes into them — are
opaque strings here. -/
inductive DocResult
  | decodeErr (e : String)
  | marshalErr (e : String)
  | extractErr (e : String)
  | invalid (e : String)
  | valid
deriving DecidableEq, Repr

/-- The error a document's processing produces, if any: the decode, marshal,
extract or cue-validation error, in the order the loop body runs the stages. -/
def DocResult.err : DocResult → Option String
  | .decodeErr e => some e
  | .marshalErr e => some e
  | .extractErr e => some e
  | .invalid e => some e
  | .valid => none

/-- Shallow embedding of `FeaturesValidator.Validate` (src/unnamed/part_002
lines 115-154): decode documents one at a time until EOF (the end of the list);
the first document whose decode, marshal, extract or cue validation fails makes
Validate return that error immediately; a stream that reaches EOF without an
error returns nil. -/
def Validate : List DocResult → Option String
  | [] => none
  | d :: rest =>
    match d.err with
    | some e => some e
    | none => Validate rest

end Flipt.Cue

/-- Claim C10: FeaturesValidator.Validate processes the YAML documents of its
input in order and returns the error of the first document that fails to decode
or fails cue validation, never examining later documents (the result does not
depend on anything after the first failure); an input containing zero YAML
documents returns nil. -/
theorem C10_features_validate_first_error :
    (Flipt.Cue.Validate [] = none) ∧
    (∀ (pre post : List Flipt.Cue.DocResult) (d : Flipt.Cue.DocResult) (e : String),
      (∀ x ∈ pre, x.err = none) → d.err = some e →
      Flipt.Cue.Validate (pre ++ d :: post) = some e) ∧
    (∀ docs : List Flipt.Cue.DocResult,
      (∀ x ∈ docs, x.err = none) → Flipt.Cue.Validate docs = none) := by
  refine ⟨rfl, ?_, ?_⟩
  · intro pre post d e hpre hd
    induction pre with
    | nil => simp [Flipt.Cue.Validate, hd]
    | cons x rest ih =>
      have hx : x.err = none := hpre x (List.mem_cons_self x rest)
      have hrest : ∀ y ∈ rest, y.err = none := fun y hy => hpre y (List.mem_cons_of_mem x hy)
      simp only [List.cons_append, Flipt.Cue.Validate, hx]
      exact ih hrest
  · intro docs hall
    induction docs with
    | nil => rfl
    | cons x rest ih =>
      have hx : x.err = none := hall x (List.mem_cons_self x rest)
      have hrest : ∀ y ∈ rest, y.err = none := fun y hy => hall y (List.mem_cons_of_mem x hy)
      simp only [Flipt.Cue.Validate, hx]
      exact ih hrest

/-- Witness for C10: a stream whose second document fails cue validation returns
that document's error even though a later document carries a decode error, and
the empty stream together with an all-valid stream return nil. -/
theorem C10_features_validate_first_error_witness :
    Flipt.Cue.Validate
      [Flipt.Cue.DocResult.valid, Flipt.Cue.DocResult.invalid "bad flag",
       Flipt.Cue.DocResult.decodeErr "later"] = some "bad flag" ∧
    Flipt.Cue.Validate [] = none ∧
    Flipt.Cue.Validate [Flipt.Cue.DocResult.valid] = none :=
  ⟨C10_features_validate_first_error.2.1 [Flipt.Cue.DocResult.valid]
      [Flipt.Cue.DocResult.decodeErr "later"] (Flipt.Cue.DocResult.invalid "bad flag")
      "bad flag" (by decide) rfl,
   C10_features_validate_first_error.1,
   C10_features_validate_first_error.2.2 [Flipt.Cue.DocResult.valid] (by decide)⟩

namespace Flipt

/-- gRPC status codes, as far as the middleware pipeline produces them
(google.golang.org/grpc/codes). -/
inductive Code
  | ok
  | canceled
  | invalidArgument
  | deadlineExceeded
  | notFound
  | unauthenticated
  | internal
deriving DecidableEq, Repr

/-- Modelled from the spec: the error kinds of package go.flipt.io/flipt/errors
(absent from the source tree) that the middleware distinguishes, per the error
taxonomy of the spec and the table of TestErrorUnaryInterceptor
(src/unnamed/part_001 lines 85-160) — not-found, invalid, invalid-field,
empty-field and unauthenticated errors, errors wrapping context deadline expiry
or cancellation, and an unclassified remainder. -/
inductive FliptError
  | errNotFound (msg : String)
  | errInvalid (msg : String)
  | invalidFieldError (field why : String)
  | emptyFieldError (field : String)
  | errUnauthenticated (msg : String)
  | wrapsDeadlineExceeded (msg : String)
  | wrapsCanceled (msg : String)
  | errUnclassified (msg : String)
deriving DecidableEq, Repr

/-- Modelled from the spec: the fixed table by which the error-translation
interceptor maps a handler error kind to an outward status code; every kind the
table does not single out defaults to internal. -/
def errorCode : FliptError → Code
  | .errNotFound _ => .notFound
  | .errInvalid _ => .invalidArgument
  | .invalidFieldError _ _ => .invalidArgument
  | .emptyFieldError _ => .invalidArgument
  | .errUnauthenticated _ => .unauthenticated
  | .wrapsDeadlineExceeded _ => .deadlineExceeded
  | .wrapsCanceled _ => .canceled
  | .errUnclassified _ => .internal

/-- Modelled from the spec: ErrorUnaryInterceptor (absent from the source tree;
exercised by TestErrorUnaryInterceptor) — translate the inner handler's error
through the table; a nil handler error produces no error. -/
def ErrorUnaryInterceptor (handlerErr : Option FliptError) : Option Code :=
  handlerErr.map errorCode

/-- A request as the validation interceptor sees it: either the request value
does not expose a Validate capability, or it does and invoking Validate yields
the given result (`none` being a nil error), as in the `validatable` type of
the tests (src/unnamed/part_001 lines 34-40). -/
inductive ValidateCapability
  | absent
  | validates (err : Option FliptError)
deriving DecidableEq, Repr

/-- Modelled from the spec: ValidationUnaryInterceptor (absent from the source
tree; exercised by TestValidationUnaryInterceptor) — if the request exposes a
Validate capability whose invocation fails, short-circuit with an
InvalidArgument-class outcome without invoking the inner handler; otherwise
invoke the inner handler exactly once and return its outcome. The first
component of the result counts handler invocations (the tests' spy counter);
`handlerErr` is the outcome the inner handler would produce. -/
def ValidationUnaryInterceptor (req : ValidateCapability) (handlerErr : Option Code) :
    Nat × Option Code :=
  match req with
  | .absent => (1, handlerErr)
  | .validates none => (1, handlerErr)
  | .validates (some _) => (0, some .invalidArgument)

end Flipt

/-- Claim C2: a request whose Validate capability returns an error never reaches
the handler (invocation count 0) and the call fails with an InvalidArgument-class
error; a request without a Validate capability, or whose Validate returns nil,
reaches the inner handler exactly once. -/
theorem C2_validation_interceptor (e : Flipt.FliptError) (handlerErr : Option Flipt.Code) :
    Flipt.ValidationUnaryInterceptor (.validates (some e)) handlerErr =
      (0, some Flipt.Code.invalidArgument) ∧
    Flipt.ValidationUnaryInterceptor .absent handlerErr = (1, handlerErr) ∧
    Flipt.ValidationUnaryInterceptor (.validates none) handlerErr = (1, handlerErr) :=
  ⟨rfl, rfl, rfl⟩

/-- Claim C3: the error-translation table — not-found maps to NotFound; invalid,
invalid-field and empty-field map to InvalidArgument; unauthenticated maps to
Unauthenticated; errors wrapping context.DeadlineExceeded and context.Canceled
map to DeadlineExceeded and Canceled; every other non-nil error maps to
Internal; a nil handler error produces no error. -/
theorem C3_error_translation_table (msg field why : String) :
    Flipt.ErrorUnaryInterceptor (some (.errNotFound msg)) = some Flipt.Code.notFound ∧
    Flipt.ErrorUnaryInterceptor (some (.errInvalid msg)) = some Flipt.Code.invalidArgument ∧
    Flipt.ErrorUnaryInterceptor (some (.invalidFieldError field why)) =
      some Flipt.Code.invalidArgument ∧
    Flipt.ErrorUnaryInterceptor (some (.emptyFieldError field)) =
      some Flipt.Code.invalidArgument ∧
    Flipt.ErrorUnaryInterceptor (some (.errUnauthenticated msg)) =
      some Flipt.Code.unauthenticated ∧
    Flipt.ErrorUnaryInterceptor (some (.wrapsDeadlineExceeded msg)) =
      some Flipt.Code.deadlineExceeded ∧
    Flipt.ErrorUnaryInterceptor (some (.wrapsCanceled msg)) = some Flipt.Code.canceled ∧
    Flipt.ErrorUnaryInterceptor (some (.errUnclassified msg)) = some Flipt.Code.internal ∧
    Flipt.ErrorUnaryInterceptor none = none :=
  ⟨rfl, rfl, rfl, rfl, rfl, rfl, rfl, rfl, rfl⟩

namespace Flipt

/-- Flag type discriminator (rpc flipt.FlagType); the zero value is the variant
type. -/
inductive FlagType
  | variantFlagType
  | booleanFlagType
deriving DecidableEq, Repr

/-- A feature flag (rpc flipt.Flag), restricted to the fields the claims read. -/
structure Flag where
  namespaceKey : String
  key : String
  enabled : Bool
  type : FlagType
deriving DecidableEq, Repr

/-- First-match lookup in an association list keyed by strings; used for the
request context, cache entries and actor metadata maps. -/
def assocLookup {α : Type} (k : String) : List (String × α) → Option α
  | [] => none
  | (k2, v) :: rest => if k2 == k then some v else assocLookup k rest

/-- Modelled from the spec: the cache key for a flag is the kind prefix "f:"
concatenated with the flag key (key derivation lives in the middleware package,
absent from the source tree; the tests pin the key "f:foo" for flag "foo" at
src/unnamed/part_001 line 406). -/
def flagCacheKey (flagKey : String) : String := "f:" ++ flagKey

/-- The observable state of the cache together with the spy counters the tests
keep around it (cacheSpy of src/unnamed/part_001): stored entries, and how
often get/set/delete were called and with which keys or items. -/
structure CacheState where
  entries : List (String × Flag)
  getCalled : Nat
  getKeys : List String
  setCalled : Nat
  setItems : List (String × Flag)
  deleteCalled : Nat
  deleteKeys : List String
deriving DecidableEq, Repr

/-- The cache before any call: no entries, all counters zero. -/
def CacheState.empty : CacheState := ⟨[], 0, [], 0, [], 0, []⟩

/-- Modelled from the spec: the read path of CacheUnaryInterceptor for GetFlag
(the interceptor is absent from the source tree; exercised by
TestCacheUnaryInterceptor_GetFlag) — look the flag's key up in the cache; on a
hit return the cached flag without touching the store; on a miss invoke the
inner handler (the store fetch) and populate the cache on success. The second
state component counts the store's underlying fetch invocations. -/
def cacheGetFlag (store : String → Option Flag) (key : String)
    (st : CacheState × Nat) : Option Flag × (CacheState × Nat) :=
  let ck := flagCacheKey key
  let cache := { st.1 with getCalled := st.1.getCalled + 1, getKeys := st.1.getKeys ++ [ck] }
  match assocLookup ck cache.entries with
  | some f => (some f, cache, st.2)
  | none =>
    match store key with
    | some f =>
      (some f,
       { cache with
           entries := cache.entries ++ [(ck, f)],
           setCalled := cache.setCalled + 1,
           setItems := cache.setItems ++ [(ck, f)] },
       st.2 + 1)
    | none => (none, cache, st.2 + 1)

/-- Repeat the cached GetFlag call n times against an unchanging store,
collecting every response. -/
def cacheGetFlagTimes (store : String → Option Flag) (key : String) :
    Nat → CacheState × Nat → List (Option Flag) × (CacheState × Nat)
  | 0, st => ([], st)
  | n + 1, st =>
    let r := cacheGetFlag store key st
    let rest := cacheGetFlagTimes store key n r.2
    (r.1 :: rest.1, rest.2)

/-- The flag the store mock of TestCacheUnaryInterceptor_GetFlag returns for
key "foo" (src/unnamed/part_001 lines 380-384). -/
def getFlagTestFlag : Flag :=
  { namespaceKey := "default", key := "foo", enabled := true, type := .variantFlagType }

/-- The unchanging store of TestCacheUnaryInterceptor_GetFlag: it serves the
flag "foo" and nothing else. -/
def getFlagTestStore : String → Option Flag :=
  fun k => if k == "foo" then some getFlagTestFlag else none

/-- The scenario of TestCacheUnaryInterceptor_GetFlag: ten GetFlag("foo") calls
through the cache interceptor starting from an empty cache. -/
def getFlagTestRun : List (Option Flag) × (CacheState × Nat) :=
  cacheGetFlagTimes getFlagTestStore "foo" 10 (CacheState.empty, 0)

end Flipt

/-- Claim C4: ten GetFlag("foo") calls with caching enabled and an unchanging
store invoke the store's underlying fetch exactly once — one miss filling the
cache under key "f:foo" via one set, then nine hits — every call returns the
flag, and the cache key for a flag is the kind prefix "f:" concatenated with
the flag key. -/
theorem C4_cache_get_flag_ten_calls :
    (Flipt.getFlagTestRun.2.2 = 1 ∧
     Flipt.getFlagTestRun.2.1.getCalled = 10 ∧
     Flipt.getFlagTestRun.2.1.setCalled = 1 ∧
     Flipt.getFlagTestRun.2.1.getKeys.contains "f:foo" = true ∧
     Flipt.assocLookup "f:foo" Flipt.getFlagTestRun.2.1.setItems =
       some Flipt.getFlagTestFlag ∧
     Flipt.getFlagTestRun.1 = List.replicate 10 (some Flipt.getFlagTestFlag)) ∧
    ∀ k : String, Flipt.flagCacheKey k = "f:" ++ k :=
  ⟨by decide, fun _ => rfl⟩

namespace Flipt

/-- A mutation request of the flag/variant resource families as the cache
interceptor distinguishes them, carrying the key of the owning flag read for
invalidation (for a flag mutation the flag's own key; for a variant mutation
the request's flag key, which may be empty as in
TestCacheUnaryInterceptor_DeleteVariant). -/
inductive MutationRequest
  | updateFlagReq (key : String)
  | deleteFlagReq (key : String)
  | createVariantReq (flagKey : String)
  | updateVariantReq (flagKey : String)
  | deleteVariantReq (flagKey : String)
deriving DecidableEq, Repr

/-- The key of the flag that owns the resource a mutation affects. -/
def MutationRequest.owningFlagKey : MutationRequest → String
  | .updateFlagReq k => k
  | .deleteFlagReq k => k
  | .createVariantReq k => k
  | .updateVariantReq k => k
  | .deleteVariantReq k => k

/-- One observable step of the cache interceptor's mutation path, in the order
it happened: the inner handler returning (with its success flag), or a cache
delete of a key. -/
inductive CacheEvent
  | handlerReturned (ok : Bool)
  | cacheDelete (key : String)
deriving DecidableEq, Repr

/-- Modelled from the spec: the mutation path of CacheUnaryInterceptor (absent
from the source tree; exercised by TestCacheUnaryInterceptor_UpdateFlag,
_DeleteFlag, _CreateVariant, _UpdateVariant and _DeleteVariant) — invoke the
inner handler first; only when it succeeds, issue one delete of the owning
flag's cache key; when it fails, leave the cache untouched. Returns the ordered
event trace together with the cache state after the call. -/
def cacheMutation (req : MutationRequest) (handlerOk : Bool) (st : CacheState) :
    List CacheEvent × CacheState :=
  if handlerOk then
    ([.handlerReturned true, .cacheDelete (flagCacheKey req.owningFlagKey)],
     { st with
         entries := st.entries.filter (fun e => e.1 != flagCacheKey req.owningFlagKey),
         deleteCalled := st.deleteCalled + 1,
         deleteKeys := st.deleteKeys ++ [flagCacheKey req.owningFlagKey] })
  else ([.handlerReturned false], st)

/-- The keys deleted in a trace, in order. -/
def deletedKeys : List CacheEvent → List String
  | [] => []
  | .cacheDelete k :: rest => k :: deletedKeys rest
  | .handlerReturned _ :: rest => deletedKeys rest

end Flipt

/-- Claim C5: for every flag or variant mutation through the cache interceptor,
a successful handler leads to exactly one cache delete, keyed by the owning
flag's identity and issued only after the handler returned; a failed handler
leads to no delete and leaves the cache untouched. -/
theorem C5_cache_mutation_invalidation (req : Flipt.MutationRequest)
    (st : Flipt.CacheState) :
    (Flipt.cacheMutation req true st).1 =
      [Flipt.CacheEvent.handlerReturned true,
       Flipt.CacheEvent.cacheDelete (Flipt.flagCacheKey req.owningFlagKey)] ∧
    Flipt.deletedKeys (Flipt.cacheMutation req true st).1 =
      [Flipt.flagCacheKey req.owningFlagKey] ∧
    (Flipt.cacheMutation req true st).2.deleteCalled = st.deleteCalled + 1 ∧
    (Flipt.cacheMutation req true st).2.deleteKeys =
      st.deleteKeys ++ [Flipt.flagCacheKey req.owningFlagKey] ∧
    (Flipt.cacheMutation req false st).1 = [Flipt.CacheEvent.handlerReturned false] ∧
    Flipt.deletedKeys (Flipt.cacheMutation req false st).1 = [] ∧
    (Flipt.cacheMutation req false st).2 = st :=
  ⟨rfl, rfl, rfl, rfl, rfl, rfl, rfl⟩

namespace Flipt

/-- Authentication method attached to a call (rpc flipt.auth Method), restricted
to the values the tests exercise. -/
inductive AuthMethod
  | methodNone
  | methodToken
  | methodOIDC
deriving DecidableEq, Repr

/-- The lowercase name under which a method appears in an audit actor map. -/
def AuthMethod.actorString : AuthMethod → String
  | .methodNone => "none"
  | .methodToken => "token"
  | .methodOIDC => "oidc"

/-- An authenticated identity attached to the call context
(rpc flipt.auth Authentication): method plus a metadata map. -/
structure Authentication where
  method : AuthMethod
  metadata : List (String × String)
deriving DecidableEq, Repr

/-- Modelled from the spec: the actor map the audit interceptor derives from the
authentication value attached to the call context — the identity's metadata
plus an "authentication" entry holding the lowercase method name; the entry is
prepended so that a first-match lookup sees it first, modelling the map
assignment that overwrites any metadata entry of the same name. An absent
authentication value yields the anonymous actor. -/
def actorFromAuthentication : Option Authentication → List (String × String)
  | none => [("authentication", "none")]
  | some a => ("authentication", a.method.actorString) :: a.metadata

/-- One audit event: the method that triggered it and the actor map. -/
structure AuditEvent where
  method : String
  actor : List (String × String)
deriving DecidableEq, Repr

/-- One observable step of the audit interceptor, in the order it happened: the
inner handler returning (with its success flag), or an event being handed to
the audit exporter. -/
inductive AuditStep
  | handlerReturned (ok : Bool)
  | exported (e : AuditEvent)
deriving DecidableEq, Repr

/-- The mutation-shaped methods the audit interceptor emits events for, as
exercised one by one by the TestAuditUnaryInterceptor_ tests
(src/unnamed/part_001 lines 1082-2112). -/
def mutationMethods : List String :=
  ["CreateFlag", "UpdateFlag", "DeleteFlag",
   "CreateVariant", "UpdateVariant", "DeleteVariant",
   "CreateSegment", "UpdateSegment", "DeleteSegment",
   "CreateConstraint", "UpdateConstraint", "DeleteConstraint",
   "CreateRule", "UpdateRule", "DeleteRule",
   "CreateDistribution", "UpdateDistribution", "DeleteDistribution",
   "CreateRollout", "UpdateRollout", "DeleteRollout",
   "CreateNamespace", "UpdateNamespace", "DeleteNamespace"]

/-- Modelled from the spec: AuditUnaryInterceptor (absent from the source tree;
exercised by the TestAuditUnaryInterceptor_ tests and
TestAuthMetadataAuditUnaryInterceptor) — invoke the inner handler; for a
mutation-shaped method, build exactly one audit event from the method name and
the actor derived from the call context and hand it to the exporter after the
handler's response is known; for any other method, export nothing. Returns the
ordered step trace. -/
def AuditUnaryInterceptor (method : String) (auth : Option Authentication)
    (handlerOk : Bool) : List AuditStep :=
  if mutationMethods.contains method then
    [.handlerReturned handlerOk, .exported ⟨method, actorFromAuthentication auth⟩]
  else [.handlerReturned handlerOk]

/-- The events exported in a trace, in order. -/
def exportedEvents : List AuditStep → List AuditEvent
  | [] => []
  | .exported e :: rest => e :: exportedEvents rest
  | .handlerReturned _ :: rest => exportedEvents rest

/-- The authenticated identity of TestAuthMetadataAuditUnaryInterceptor: method
OIDC with metadata email example@flipt.com (src/unnamed/part_001 lines
2149-2154). -/
def oidcTestAuthentication : Authentication :=
  { method := .methodOIDC, metadata := [("email", "example@flipt.com")] }

end Flipt

/-- Claim C6: every mutation-shaped call through the audit interceptor exports
exactly one audit event, emitted after the inner handler's response is known;
and with an authenticated OIDC identity carrying email example@flipt.com
attached to the context, the event's actor map contains that email and
authentication "oidc". -/
theorem C6_audit_one_event_per_mutation (method : String)
    (auth : Option Flipt.Authentication) (ok : Bool)
    (hm : Flipt.mutationMethods.contains method = true) :
    Flipt.AuditUnaryInterceptor method auth ok =
      [Flipt.AuditStep.handlerReturned ok,
       Flipt.AuditStep.exported ⟨method, Flipt.actorFromAuthentication auth⟩] ∧
    (Flipt.exportedEvents (Flipt.AuditUnaryInterceptor method auth ok)).length = 1 ∧
    (Flipt.assocLookup "email"
        (Flipt.actorFromAuthentication (some Flipt.oidcTestAuthentication)) =
      some "example@flipt.com" ∧
     Flipt.assocLookup "authentication"
        (Flipt.actorFromAuthentication (some Flipt.oidcTestAuthentication)) =
      some "oidc") := by
  unfold Flipt.AuditUnaryInterceptor
  rw [hm]
  exact ⟨rfl, rfl, by decide, by decide⟩

/-- Witness for C6: a CreateFlag call with the OIDC test identity produces the
single expected trace, one exported event, and the expected actor entries. -/
theorem C6_audit_one_event_per_mutation_witness :
    Flipt.AuditUnaryInterceptor "CreateFlag" (some Flipt.oidcTestAuthentication) true =
      [Flipt.AuditStep.handlerReturned true,
       Flipt.AuditStep.exported
         ⟨"CreateFlag", Flipt.actorFromAuthentication (some Flipt.oidcTestAuthentication)⟩] ∧
    (Flipt.exportedEvents
        (Flipt.AuditUnaryInterceptor "CreateFlag" (some Flipt.oidcTestAuthentication) true)).length = 1 ∧
    (Flipt.assocLookup "email"
        (Flipt.actorFromAuthentication (some Flipt.oidcTestAuthentication)) =
      some "example@flipt.com" ∧
     Flipt.assocLookup "authentication"
        (Flipt.actorFromAuthentication (some Flipt.oidcTestAuthentication)) =
      some "oidc") :=
  C6_audit_one_event_per_mutation "CreateFlag" (some Flipt.oidcTestAuthentication) true
    (by decide)

namespace Flipt

/-- The shape of a single evaluation request: the legacy combined call, or the
variant / boolean calls of the newer evaluation API; the enrichment interceptor
treats all three uniformly. -/
inductive EvalRequestShape
  | legacyShape
  | variantShape
  | booleanShape
deriving DecidableEq, Repr

/-- A single evaluation request as the enrichment interceptor reads it. -/
structure EvalRequest where
  shape : EvalRequestShape
  flagKey : String
  requestId : String
deriving DecidableEq, Repr

/-- A single evaluation response as the enrichment interceptor stamps it: the
request identifier, the completion timestamp (0 meaning unset) and the request
duration in milliseconds (0 meaning unset). -/
structure EvalResponse where
  requestId : String
  timestamp : Nat
  requestDurationMillis : Nat
deriving DecidableEq, Repr

/-- Modelled from the spec: the single-evaluation path of
EvaluationUnaryInterceptor (absent from the source tree; exercised by
TestEvaluationUnaryInterceptor_Evaluation) — echo a caller-supplied request ID,
or install the generated one on the request before the handler runs; stamp the
response with the request ID, the completion timestamp t1 and the duration
t1 - t0. The generated UUID and the wall clock are external inputs, passed in
as `gen`, `t0` and `t1`. Returns the request as the handler saw it together
with the final response. -/
def EvaluationUnaryInterceptorSingle (gen : String) (t0 t1 : Nat) (req : EvalRequest)
    (handler : EvalRequest → EvalResponse) : EvalRequest × EvalResponse :=
  if req.requestId = "" then
    ({ req with requestId := gen },
     { handler { req with requestId := gen } with
         requestId := gen, timestamp := t1, requestDurationMillis := t1 - t0 })
  else
    (req,
     { handler req with
         requestId := req.requestId, timestamp := t1, requestDurationMillis := t1 - t0 })

/-- A handler for the single-evaluation witness: it echoes the request ID it was
given and stamps nothing. -/
def singleEvalTestHandler : EvalRequest → EvalResponse :=
  fun r => { requestId := r.requestId, timestamp := 0, requestDurationMillis := 0 }

/-- A batch evaluation request (rpc flipt.BatchEvaluationRequest): an optional
caller-supplied request ID and the ordered sub-requests. -/
structure BatchEvalRequest where
  requestId : String
  requests : List EvalRequest
deriving DecidableEq, Repr

/-- A batch evaluation response (rpc flipt.BatchEvaluationResponse). -/
structure BatchEvalResponse where
  requestId : String
  requestDurationMillis : Nat
  responses : List EvalResponse
deriving DecidableEq, Repr

/-- Modelled from the spec: the batch path of EvaluationUnaryInterceptor (absent
from the source tree; exercised by TestEvaluationUnaryInterceptor_BatchEvaluation)
— install the batch's request ID (the caller's, or the generated one) on the
request before the handler runs, echo it at top level, share it across every
sub-response, stamp each sub-response with the completion timestamp and the
batch with the duration. -/
def EvaluationUnaryInterceptorBatch (gen : String) (t0 t1 : Nat) (req : BatchEvalRequest)
    (handler : BatchEvalRequest → BatchEvalResponse) : BatchEvalResponse :=
  if req.requestId = "" then
    { handler { req with requestId := gen } with
        requestId := gen,
        requestDurationMillis := t1 - t0,
        responses := (handler { req with requestId := gen }).responses.map
          (fun r => { r with requestId := gen, timestamp := t1 }) }
  else
    { handler req with
        requestId := req.requestId,
        requestDurationMillis := t1 - t0,
        responses := (handler req).responses.map
          (fun r => { r with requestId := req.requestId, timestamp := t1 }) }

/-- A handler for the batch witness: one sub-response, nothing stamped. -/
def batchEvalTestHandler : BatchEvalRequest → BatchEvalResponse :=
  fun _ =>
    { requestId := "", requestDurationMillis := 0,
      responses := [{ requestId := "", timestamp := 0, requestDurationMillis := 0 }] }

end Flipt

/-- Claim C7: for every single evaluation request (legacy, variant or boolean
shape) through the enrichment interceptor, a caller-supplied request ID is
echoed back unchanged; otherwise the generated (non-empty) ID is installed,
visible to the inner handler, and returned; and the response carries a non-zero
completion timestamp and a non-zero duration in milliseconds. -/
theorem C7_single_eval_enrichment (gen : String) (t0 t1 : Nat) (req : Flipt.EvalRequest)
    (handler : Flipt.EvalRequest → Flipt.EvalResponse)
    (hg : gen ≠ "") (ht : t0 < t1) :
    (req.requestId ≠ "" →
      (Flipt.EvaluationUnaryInterceptorSingle gen t0 t1 req handler).1 = req ∧
      (Flipt.EvaluationUnaryInterceptorSingle gen t0 t1 req handler).2.requestId =
        req.requestId) ∧
    (req.requestId = "" →
      (Flipt.EvaluationUnaryInterceptorSingle gen t0 t1 req handler).1.requestId = gen ∧
      (Flipt.EvaluationUnaryInterceptorSingle gen t0 t1 req handler).2.requestId = gen) ∧
    (Flipt.EvaluationUnaryInterceptorSingle gen t0 t1 req handler).2.requestId ≠ "" ∧
    (Flipt.EvaluationUnaryInterceptorSingle gen t0 t1 req handler).2.timestamp = t1 ∧
    t1 ≠ 0 ∧
    (Flipt.EvaluationUnaryInterceptorSingle gen t0 t1 req handler).2.requestDurationMillis =
      t1 - t0 ∧
    t1 - t0 ≠ 0 := by
  have hne0 : t1 ≠ 0 := by omega
  have hdur : t1 - t0 ≠ 0 := by omega
  by_cases h : req.requestId = ""
  · refine ⟨fun hc => absurd h hc, fun _ => ?_, ?_, ?_, hne0, ?_, hdur⟩ <;>
      simp [Flipt.EvaluationUnaryInterceptorSingle, if_pos h, hg]
  · refine ⟨fun _ => ?_, fun hc => absurd hc h, ?_, ?_, hne0, ?_, hdur⟩ <;>
      simp [Flipt.EvaluationUnaryInterceptorSingle, if_neg h, h]

/-- Witness for C7: with generated ID "generated-id" and clock 3 to 7, a request
without an ID gets "generated-id" back, a request with ID "bar" gets "bar"
back, and timestamp and duration are non-zero. -/
theorem C7_single_eval_enrichment_witness :
    (Flipt.EvaluationUnaryInterceptorSingle "generated-id" 3 7
        ⟨.legacyShape, "foo", ""⟩ Flipt.singleEvalTestHandler).2.requestId =
      "generated-id" ∧
    (Flipt.EvaluationUnaryInterceptorSingle "generated-id" 3 7
        ⟨.variantShape, "foo", "bar"⟩ Flipt.singleEvalTestHandler).2.requestId = "bar" ∧
    (Flipt.EvaluationUnaryInterceptorSingle "generated-id" 3 7
        ⟨.legacyShape, "foo", ""⟩ Flipt.singleEvalTestHandler).2.timestamp ≠ 0 ∧
    (Flipt.EvaluationUnaryInterceptorSingle "generated-id" 3 7
        ⟨.legacyShape, "foo", ""⟩ Flipt.singleEvalTestHandler).2.requestDurationMillis ≠ 0 := by
  have h1 := C7_single_eval_enrichment "generated-id" 3 7 ⟨.legacyShape, "foo", ""⟩
    Flipt.singleEvalTestHandler (by decide) (by decide)
  have h2 := C7_single_eval_enrichment "generated-id" 3 7 ⟨.variantShape, "foo", "bar"⟩
    Flipt.singleEvalTestHandler (by decide) (by decide)
  refine ⟨(h1.2.1 rfl).2, (h2.1 (by decide)).2, ?_, ?_⟩
  · rw [h1.2.2.2.1]
    exact h1.2.2.2.2.1
  · rw [h1.2.2.2.2.2.1]
    exact h1.2.2.2.2.2.2

/-- Claim C8: for every batch evaluation request, a missing request ID is
replaced by the generated (non-empty) one at top level, a supplied ID is echoed
exactly; the batch's single request ID is shared across all sub-responses, and
each sub-response carries its own non-zero timestamp. -/
theorem C8_batch_eval_enrichment (gen : String) (t0 t1 : Nat)
    (req : Flipt.BatchEvalRequest)
    (handler : Flipt.BatchEvalRequest → Flipt.BatchEvalResponse)
    (hg : gen ≠ "") (ht : t0 < t1) :
    (req.requestId = "" →
      (Flipt.EvaluationUnaryInterceptorBatch gen t0 t1 req handler).requestId = gen) ∧
    (req.requestId ≠ "" →
      (Flipt.EvaluationUnaryInterceptorBatch gen t0 t1 req handler).requestId =
        req.requestId) ∧
    (Flipt.EvaluationUnaryInterceptorBatch gen t0 t1 req handler).requestId ≠ "" ∧
    (∀ r ∈ (Flipt.EvaluationUnaryInterceptorBatch gen t0 t1 req handler).responses,
      r.requestId = (Flipt.EvaluationUnaryInterceptorBatch gen t0 t1 req handler).requestId ∧
      r.timestamp = t1 ∧ r.timestamp ≠ 0) := by
  by_cases h : req.requestId = ""
  · simp only [Flipt.EvaluationUnaryInterceptorBatch, if_pos h]
    refine ⟨fun _ => trivial, fun hne => absurd h hne, hg, ?_⟩
    intro r hr
    rw [List.mem_map] at hr
    obtain ⟨a, _, rfl⟩ := hr
    exact ⟨rfl, rfl, show t1 ≠ 0 by omega⟩
  · simp only [Flipt.EvaluationUnaryInterceptorBatch, if_neg h]
    refine ⟨fun he => absurd he h, fun _ => trivial, h, ?_⟩
    intro r hr
    rw [List.mem_map] at hr
    obtain ⟨a, _, rfl⟩ := hr
    exact ⟨rfl, rfl, show t1 ≠ 0 by omega⟩

/-- Witness for C8: a batch of one sub-request with no ID gets the generated
"batch-id" at top level, a batch with ID "bar" echoes "bar", and the one
sub-response the handler produced carries the shared ID and a non-zero
timestamp. -/
theorem C8_batch_eval_enrichment_witness :
    (Flipt.EvaluationUnaryInterceptorBatch "batch-id" 0 4
        ⟨"", [⟨.variantShape, "foo", ""⟩]⟩ Flipt.batchEvalTestHandler).requestId =
      "batch-id" ∧
    (Flipt.EvaluationUnaryInterceptorBatch "batch-id" 0 4
        ⟨"bar", [⟨.variantShape, "foo", ""⟩]⟩ Flipt.batchEvalTestHandler).requestId =
      "bar" ∧
    ((⟨"batch-id", 4, 0⟩ : Flipt.EvalResponse).requestId =
      (Flipt.EvaluationUnaryInterceptorBatch "batch-id" 0 4
        ⟨"", [⟨.variantShape, "foo", ""⟩]⟩ Flipt.batchEvalTestHandler).requestId ∧
     (⟨"batch-id", 4, 0⟩ : Flipt.EvalResponse).timestamp = 4 ∧
     (⟨"batch-id", 4, 0⟩ : Flipt.EvalResponse).timestamp ≠ 0) := by
  have h1 := C8_batch_eval_enrichment "batch-id" 0 4 ⟨"", [⟨.variantShape, "foo", ""⟩]⟩
    Flipt.batchEvalTestHandler (by decide) (by decide)
  have h2 := C8_batch_eval_enrichment "batch-id" 0 4 ⟨"bar", [⟨.variantShape, "foo", ""⟩]⟩
    Flipt.batchEvalTestHandler (by decide) (by decide)
  exact ⟨h1.1 rfl, h2.2.1 (by decide), h1.2.2.2 ⟨"batch-id", 4, 0⟩ (by decide)⟩

namespace Flipt

/-- Comparison type of a constraint (rpc flipt.ComparisonType), restricted to
the types the claims exercise. -/
inductive ComparisonType
  | stringComparison
  | booleanComparison
deriving DecidableEq, Repr

/-- Constraint operators (rpc flipt operator constants), restricted to the
operators the claims exercise plus presence checks. -/
inductive ConstraintOp
  | opEQ
  | opNEQ
  | opTrue
  | opFalse
  | opPresent
  | opNotPresent
deriving DecidableEq, Repr

/-- One typed comparison of a segment (storage.EvaluationConstraint): the
property to read from the request context, the operator and the comparison
value. -/
structure EvaluationConstraint where
  type : ComparisonType
  property : String
  operator : ConstraintOp
  value : String
deriving DecidableEq, Repr

/-- Modelled from the spec: parsing a context value as a boolean for the
BOOLEAN comparison operators; anything that does not parse makes the
constraint a non-match, never an error. -/
def parseBool : String → Option Bool
  | "true" => some true
  | "false" => some false
  | _ => none

/-- Modelled from the spec: the constraint evaluator (absent from the source
tree) — one typed comparison against the request context. A property missing
from the context is a non-match for every operator except opNotPresent, which
matches; BOOLEAN operators ignore the comparison value and are a non-match when
the context value does not parse as a boolean; STRING operators compare literal
text. -/
def evaluateConstraint (c : EvaluationConstraint) (ctx : List (String × String)) : Bool :=
  match assocLookup c.property ctx with
  | none => c.operator == ConstraintOp.opNotPresent
  | some v =>
    match c.type, c.operator with
    | _, .opNotPresent => false
    | _, .opPresent => true
    | .stringComparison, .opEQ => v == c.value
    | .stringComparison, .opNEQ => v != c.value
    | .booleanComparison, .opTrue => parseBool v == some true
    | .booleanComparison, .opFalse => parseBool v == some false
    | _, _ => false

/-- How a segment combines its own constraints (rpc flipt.MatchType). -/
inductive MatchType
  | allMatchType
  | anyMatchType
deriving DecidableEq, Repr

/-- A segment with its embedded constraints (storage.EvaluationSegment). -/
structure EvaluationSegment where
  segmentKey : String
  matchType : MatchType
  constraints : List EvaluationConstraint
deriving DecidableEq, Repr

/-- Modelled from the spec: the segment matcher (absent from the source tree) —
ALL semantics requires every constraint to match (an empty constraint set
matches trivially); ANY semantics requires at least one (an empty constraint
set never matches). -/
def matchSegment (s : EvaluationSegment) (ctx : List (String × String)) : Bool :=
  match s.matchType with
  | .allMatchType => s.constraints.all (fun c => evaluateConstraint c ctx)
  | .anyMatchType => s.constraints.any (fun c => evaluateConstraint c ctx)

/-- The combinator a rollout applies across its referenced segments, layered on
top of each segment's internal match type. -/
inductive SegmentOperator
  | andSegmentOperator
  | orSegmentOperator
deriving DecidableEq, Repr

/-- A SEGMENT rollout rule (storage.RolloutSegment): referenced segments, the
cross-segment combinator, and the boolean value returned on match. -/
structure RolloutSegment where
  segments : List EvaluationSegment
  segmentOperator : SegmentOperator
  value : Bool
deriving DecidableEq, Repr

/-- A THRESHOLD rollout rule (storage.RolloutThreshold): a percentage (in whole
percentage points) and the boolean value returned on match. -/
structure RolloutThreshold where
  percentage : Nat
  value : Bool
deriving DecidableEq, Repr

/-- The rule carried by a rollout, discriminated by rollout type (rpc
flipt.RolloutType SEGMENT or THRESHOLD). -/
inductive RolloutRule
  | segmentRule (s : RolloutSegment)
  | thresholdRule (t : RolloutThreshold)
deriving DecidableEq, Repr

/-- One rollout of a boolean flag (storage.EvaluationRollout), already in rank
order as the store serves them. -/
structure EvaluationRollout where
  rank : Nat
  rule : RolloutRule
deriving DecidableEq, Repr

/-- Modelled from the spec: whether one rollout matches the request, and the
boolean value it contributes if so. A SEGMENT rollout matches when its
referenced segments match under its combinator; a THRESHOLD rollout matches
when the deterministic bucket of the flag-plus-entity seed, reduced into
[0, 10000), falls under its percentage scaled by 100. `bucket` stands for the
stable hash of the bucketing function, an external input. -/
def matchRollout (bucket : String → Nat) (flagKey entityId : String)
    (ctx : List (String × String)) : RolloutRule → Option Bool
  | .segmentRule s =>
    let matched :=
      match s.segmentOperator with
      | .andSegmentOperator => s.segments.all (fun seg => matchSegment seg ctx)
      | .orSegmentOperator => s.segments.any (fun seg => matchSegment seg ctx)
    if matched then some s.value else none
  | .thresholdRule t =>
    if bucket (flagKey ++ entityId) % 10000 < t.percentage * 100 then some t.value
    else none

/-- The first matching rollout's value, walking the rollouts in rank order. -/
def evalRollouts (bucket : String → Nat) (flagKey entityId : String)
    (ctx : List (String × String)) : List EvaluationRollout → Option Bool
  | [] => none
  | r :: rest =>
    match matchRollout bucket flagKey entityId ctx r.rule with
    | some v => some v
    | none => evalRollouts bucket flagKey entityId ctx rest

/-- Reason codes of an evaluation response (rpc evaluation.EvaluationReason). -/
inductive EvaluationReason
  | unknownReason
  | flagDisabledReason
  | matchReason
  | defaultReason
deriving DecidableEq, Repr

/-- A boolean evaluation response (rpc evaluation.BooleanEvaluationResponse),
restricted to the fields the claims read. -/
structure BooleanEvaluationResponse where
  enabled : Bool
  reason : EvaluationReason
deriving DecidableEq, Repr

/-- Modelled from the spec: the boolean evaluation engine (package
internal/server/evaluation, absent from the source tree), §4.4 of the spec,
with one deliberate deviation forced by the repository's own test: the spec's
disabled-flag short-circuit (return enabled=false with reason FLAG_DISABLED
before any rollout) is absent, because TestCacheUnaryInterceptor_Evaluation_Boolean
(src/unnamed/part_001 lines 933-1074) serves a flag with enabled=false and
asserts enabled=true with reason MATCH when its SEGMENT rollout matches, and
reason DEFAULT (not FLAG_DISABLED) otherwise. Rollouts are walked in rank
order; the first match decides the response with reason MATCH; with no match
the response is the flag's enabled field with reason DEFAULT. -/
def booleanEvaluation (bucket : String → Nat) (flag : Flag)
    (rollouts : List EvaluationRollout) (entityId : String)
    (ctx : List (String × String)) : BooleanEvaluationResponse :=
  match evalRollouts bucket flag.key entityId ctx rollouts with
  | some v => { enabled := v, reason := .matchReason }
  | none => { enabled := flag.enabled, reason := .defaultReason }

/-- The flag the store mock of TestCacheUnaryInterceptor_Evaluation_Boolean
serves for key "foo": a boolean flag with enabled=false (src/unnamed/part_001
lines 946-950). -/
def booleanTestFlag : Flag :=
  { namespaceKey := "", key := "foo", enabled := false, type := .booleanFlagType }

/-- The rollouts the store mock of TestCacheUnaryInterceptor_Evaluation_Boolean
serves for flag "foo": one SEGMENT rollout of rank 1 and value true, whose
segment "bar" requires (ALL) the string constraint bar == "baz" and the boolean
constraint admin is-true (src/unnamed/part_001 lines 952-984). -/
def booleanTestRollouts : List EvaluationRollout :=
  [ { rank := 1,
      rule := .segmentRule
        { segments :=
            [ { segmentKey := "bar"
                matchType := .allMatchType
                constraints :=
                  [ { type := .stringComparison, property := "bar",
                      operator := .opEQ, value := "baz" },
                    { type := .booleanComparison, property := "admin",
                      operator := .opTrue, value := "" } ] } ]
          segmentOperator := .andSegmentOperator
          value := true } } ]

end Flipt

/-- The boolean-evaluation model reproduces every assertion of
TestCacheUnaryInterceptor_Evaluation_Boolean on the test's store fixture
(disabled flag "foo", one SEGMENT rollout with value true), for any bucketing
function — the test uses no THRESHOLD rollout: the matching context gets
enabled=true with reason MATCH; the three non-matching contexts get
enabled=false with reason DEFAULT. -/
theorem booleanEvaluation_reproduces_test (bucket : String → Nat) :
    Flipt.booleanEvaluation bucket Flipt.booleanTestFlag Flipt.booleanTestRollouts "1"
        [("bar", "baz"), ("admin", "true")] = ⟨true, .matchReason⟩ ∧
    Flipt.booleanEvaluation bucket Flipt.booleanTestFlag Flipt.booleanTestRollouts "1"
        [("bar", "boz"), ("admin", "true")] = ⟨false, .defaultReason⟩ ∧
    Flipt.booleanEvaluation bucket Flipt.booleanTestFlag Flipt.booleanTestRollouts "1"
        [("admin", "true")] = ⟨false, .defaultReason⟩ ∧
    Flipt.booleanEvaluation bucket Flipt.booleanTestFlag Flipt.booleanTestRollouts "1"
        [("bar", "baz")] = ⟨false, .defaultReason⟩ :=
  ⟨rfl, rfl, rfl, rfl⟩

/-- Claim C1 counterexample: at the concrete input of the repository's own
boolean evaluation test — the disabled flag "foo", its matching SEGMENT
rollout, entity "1" and context bar=baz, admin=true — evaluation returns
enabled=true with reason MATCH, which differs from the enabled=false,
reason FLAG_DISABLED response the claim requires for every disabled flag. -/
theorem C1_counterexample :
    Flipt.booleanTestFlag.enabled = false ∧
    Flipt.booleanEvaluation (fun _ => 0) Flipt.booleanTestFlag Flipt.booleanTestRollouts
        "1" [("bar", "baz"), ("admin", "true")] = ⟨true, .matchReason⟩ ∧
    (⟨true, .matchReason⟩ : Flipt.BooleanEvaluationResponse) ≠
      ⟨false, .flagDisabledReason⟩ :=
  ⟨rfl, rfl, by decide⟩

/-- Claim C1 (amended): boolean evaluation does not short-circuit on a disabled
flag — for every flag with enabled=false the response reason is never
FLAG_DISABLED: rollouts are evaluated regardless, the first matching rollout
decides the response with reason MATCH (even when the flag is disabled), and
when no rollout matches the response is the flag's enabled field (false) with
reason DEFAULT, the enabled field acting as the default value rather than a
kill switch. -/
theorem C1_boolean_disabled_no_short_circuit (bucket : String → Nat)
    (flag : Flipt.Flag) (rollouts : List Flipt.EvaluationRollout)
    (entityId : String) (ctx : List (String × String))
    (hdis : flag.enabled = false) :
    (Flipt.booleanEvaluation bucket flag rollouts entityId ctx).reason ≠
      Flipt.EvaluationReason.flagDisabledReason ∧
    (∀ v, Flipt.evalRollouts bucket flag.key entityId ctx rollouts = some v →
      Flipt.booleanEvaluation bucket flag rollouts entityId ctx =
        ⟨v, .matchReason⟩) ∧
    (Flipt.evalRollouts bucket flag.key entityId ctx rollouts = none →
      Flipt.booleanEvaluation bucket flag rollouts entityId ctx =
        ⟨false, .defaultReason⟩) := by
  unfold Flipt.booleanEvaluation
  cases h : Flipt.evalRollouts bucket flag.key entityId ctx rollouts with
  | none => simp [h, hdis]
  | some v => simp [h]

/-- Witness for C1 (amended): on the test fixture with the non-matching context
bar=baz the disabled flag yields reason DEFAULT with enabled=false, and with
the matching context the rollout value true is returned with reason MATCH. -/
theorem C1_boolean_disabled_no_short_circuit_witness :
    (Flipt.booleanEvaluation (fun _ => 0) Flipt.booleanTestFlag Flipt.booleanTestRollouts
        "1" [("bar", "baz")]).reason ≠ Flipt.EvaluationReason.flagDisabledReason ∧
    Flipt.booleanEvaluation (fun _ => 0) Flipt.booleanTestFlag Flipt.booleanTestRollouts
        "1" [("bar", "baz")] = ⟨false, .defaultReason⟩ ∧
    Flipt.booleanEvaluation (fun _ => 0) Flipt.booleanTestFlag Flipt.booleanTestRollouts
        "1" [("bar", "baz"), ("admin", "true")] = ⟨true, .matchReason⟩ := by
  have h1 := C1_boolean_disabled_no_short_circuit (fun _ => 0) Flipt.booleanTestFlag
    Flipt.booleanTestRollouts "1" [("bar", "baz")] rfl
  have h2 := C1_boolean_disabled_no_short_circuit (fun _ => 0) Flipt.booleanTestFlag
    Flipt.booleanTestRollouts "1" [("bar", "baz"), ("admin", "true")] rfl
  exact ⟨h1.1, h1.2.2 (by decide), h2.2.1 true (by decide)⟩
